import Mathlib

/-!
Verification of the Gomel cars backend against its specification.

The backend is an Express + SQLite application with an optional MongoDB
mirror.  This file gives a shallow embedding of the data model and of the
route handlers the properties below talk about, and proves or refutes each
property.  Timestamps and calendar dates are stored by the program as ISO
text and compared lexicographically (SQLite TEXT comparison, MongoDB string
comparison); both are linear orders, so dates are modelled by an arbitrary
linear order where the order matters and by plain values elsewhere.
-/

namespace Avail

/-- A row of the cars table as read by GET /availability: id, the
available flag, the soft-delete marker (nullable integer column, modelled
as an Option) and the city used for the optional city filter.  The MongoDB
mirror stores the same fields with id under the name sqliteId. -/
structure Car (D : Type) where
  id : Nat
  available : Bool
  deleted : Option Bool
  city : Option String
  deriving Repr, DecidableEq

/-- A row of the bookings table as read by the availability query:
the referenced car, the status column (nullable) and the pickup/return
dates.  Dates are written by POST /api/bookings, which validates them as
strings, so they are modelled as non-null values of the date order D. -/
structure Booking (D : Type) where
  carId : Nat
  status : Option String
  pickupDate : D
  returnDate : D
  deriving Repr, DecidableEq

variable {D : Type} [LinearOrder D]

/-- SQL conflict test from the availability query, one booking:
b.car_id = c.id AND (b.status IS NULL OR b.status <> 'cancelled')
AND NOT (b.return_date <= ?pickup OR b.pickup_date >= ?return). -/
def conflictSql (carId : Nat) (pickup ret : D) (b : Booking D) : Bool :=
  b.carId == carId
    && (b.status == none || !(b.status == some "cancelled"))
    && !(decide (b.returnDate ≤ pickup) || decide (b.pickupDate ≥ ret))

/-- The CASE expression of the SQLite availability query for one car:
0 when available = 0, 0 when a conflicting booking EXISTS, else 1. -/
def availableForRangeSql (c : Car D) (bookings : List (Booking D))
    (pickup ret : D) : Bool :=
  if c.available = false then false
  else if bookings.any (conflictSql c.id pickup ret) then false
  else true

/-- Mongo conflict filter from the availability route: findOne on bookings
with carId = c.sqliteId, ($or status missing / status $ne cancelled) and
$nor [returnDate $lte pickup, pickupDate $gte return]. -/
def conflictMongo (carId : Nat) (pickup ret : D) (b : Booking D) : Bool :=
  b.carId == carId
    && (b.status == none || !(b.status == some "cancelled"))
    && !(decide (b.returnDate ≤ pickup)) && !(decide (b.pickupDate ≥ ret))

/-- The Mongo branch per-car result: available := !!c.available, then a
conflict lookup only when still available; a found conflict flips it. -/
def availableForRangeMongo (c : Car D) (bookings : List (Booking D))
    (pickup ret : D) : Bool :=
  let available := c.available
  if available then
    if (bookings.find? (conflictMongo c.id pickup ret)).isSome then false
    else true
  else available

/-- Car filter of the SQLite branch of part_004:
(c.deleted IS NULL OR c.deleted = 0) AND optionally c.city = ?. -/
def carKeptSql (city : Option String) (c : Car D) : Bool :=
  (c.deleted == none || c.deleted == some false)
    && (match city with | none => true | some ct => c.city == some ct)

/-- Car filter of the Mongo branch: $or [deleted $exists false,
deleted false], plus carFilter.city = city when given. -/
def carKeptMongo (city : Option String) (c : Car D) : Bool :=
  (c.deleted == none || c.deleted == some false)
    && (match city with | none => true | some ct => c.city == some ct)

/-- The whole SQLite branch of GET /availability: one (id,
availableForRange) pair per non-deleted (city-filtered) car. -/
def availabilityListSql (cars : List (Car D)) (bookings : List (Booking D))
    (pickup ret : D) (city : Option String) : List (Nat × Bool) :=
  (cars.filter (carKeptSql city)).map
    (fun c => (c.id, availableForRangeSql c bookings pickup ret))

/-- The whole Mongo branch of GET /availability: the loop pushes
one result id := c.sqliteId, availableForRange per filtered car. -/
def availabilityListMongo (cars : List (Car D)) (bookings : List (Booking D))
    (pickup ret : D) (city : Option String) : List (Nat × Bool) :=
  (cars.filter (carKeptMongo city)).map
    (fun c => (c.id, availableForRangeMongo c bookings pickup ret))

end Avail

/-- Keep only the decimal digits of a string: String(m).replace of every
non-digit by the empty string. -/
def digitsOnly (s : String) : String :=
  String.mk (s.toList.filter Char.isDigit)

/-- JS String.prototyptoLowerStr eCase (over the characters). -/
def toLowerStr (s : String) : String :=
  String.mk (s.toList.map Char.toLower)

/-- JS String.prototype.trim: strip leading and trailing whitespace. -/
def trimStr (s : String) : String :=
  String.mk
    (((s.toList.dropWhile Char.isWhitespace).reverse.dropWhile
      Char.isWhitespace).reverse)

/-- String(email).trim().toLowerCase() as done by the auth routes. -/
def normalizeEmail (s : String) : String :=
  toLowerStr (trimStr s)

namespace Db

/-- A row of the SQLite users table as used by the auth routes:
id, email (NOT NULL), nullable full_name / mobile / password_hash,
and the created_at timestamp. -/
structure UserRow where
  id : Nat
  email : String
  fullName : Option String
  mobile : Option String
  passwordHash : Option String
  createdAt : Nat
  deriving Repr, DecidableEq

/-- A row of the SQLite bookings table as written by POST /api/bookings
(location, verification and payment columns are copied data and are not
needed by any property below). -/
structure BookingRow where
  id : Nat
  userId : Nat
  carId : Nat
  pickupDate : String
  returnDate : String
  totalCost : Option Nat
  days : Option Nat
  status : Option String
  deriving Repr, DecidableEq

end Db

/-- normalizeMobile from the auth route: null stays null, otherwise keep
the digits; an all-stripped (empty) result becomes null. -/
def normalizeMobile (m : Option String) : Option String :=
  match m with
  | none => none
  | some s =>
    if s = "" then none
    else
      let d := digitsOnly s
      if d = "" then none else some d

deriving instance DecidableEq for Except

namespace Mongo

/-- A document of the Mongo users collection: _id (as text), the primary
key sqliteId when mirrored from SQLite, and the mirrored profile fields.
Absent document fields are modelled as none. -/
structure MUser where
  mid : String
  sqliteId : Option Nat
  email : String
  fullName : Option String
  mobile : Option String
  role : Option String
  isActive : Option Bool
  deleted : Option Bool
  createdAt : Option Nat
  deriving Repr, DecidableEq

/-- A document of the Mongo cars collection (fields used by the list
endpoints below). -/
structure MCar where
  sqliteId : Nat
  name : String
  deriving Repr, DecidableEq

/-- A document of the Mongo bookings collection (fields used by the list
endpoints below). -/
structure MBooking where
  sqliteId : Nat
  userId : Nat
  carId : Nat
  status : Option String
  deriving Repr, DecidableEq

/-- Contents of the secondary document store. -/
structure MongoData where
  users : List MUser
  cars : List MCar
  bookings : List MBooking
  deriving Repr, DecidableEq

/-- The observable states of the secondary store: unconfigured or
unreachable (getMongoDb yields null), reachable but with every collection
operation throwing, or reachable and operational with contents d. -/
inductive MongoSt where
  | off
  | broken
  | on (d : MongoData)
  deriving Repr, DecidableEq

/-- mongoUserExists: false when the connection is unavailable or the
findOne throws (both caught), otherwise an email lookup (the caller passes
the already lowercased email; the helper lowercases again). -/
def mongoUserExists (m : MongoSt) (email : String) : Bool :=
  match m with
  | .off => false
  | .broken => false
  | .on d => d.users.any (fun u => u.email == toLowerStr email)

/-- mongoMobileTaken: false when unavailable or throwing; otherwise a
lookup for mobile = digits, optionally excluding one email ($ne on the
lowercased excludeEmail); an empty digits string is never taken. -/
def mongoMobileTaken (m : MongoSt) (mobile : String)
    (excludeEmail : Option String) : Bool :=
  match m with
  | .off => false
  | .broken => false
  | .on d =>
    let digits := digitsOnly mobile
    if digits = "" then false
    else d.users.any (fun u =>
      u.mobile == some digits
        && (match excludeEmail with
            | some e => !(u.email == toLowerStr e)
            | none => true))

/-- getMongoUser: null when unavailable or throwing, otherwise findOne by
lowercased email. -/
def getMongoUser (m : MongoSt) (email : String) : Option MUser :=
  match m with
  | .off => none
  | .broken => none
  | .on d => d.users.find? (fun u => u.email == toLowerStr email)

/-- Outcome value of a mirror helper: {ok:true}, {ok:false,skipped:true}
or {ok:false,error}. -/
inductive MirrorOutcome where
  | ok
  | skipped (reason : String)
  | failed (err : String)
  deriving Repr, DecidableEq

/-- Raw findOne on the users collection; throws when the store is in the
throwing state (and is never reached when unconfigured). -/
def usersFindByEmail (m : MongoSt) (email : String) :
    Except String (Option MUser) :=
  match m with
  | .off => .error "not_connected"
  | .broken => .error "mongo_write_failed"
  | .on d => .ok (d.users.find? (fun u => u.email == email))

/-- Raw updateOne by email on the users collection. -/
def usersUpdateByEmail (m : MongoSt) (email : String) (f : MUser → MUser) :
    Except String MongoSt :=
  match m with
  | .off => .error "not_connected"
  | .broken => .error "mongo_write_failed"
  | .on d => .ok (.on { d with
      users := d.users.map (fun u => if u.email == email then f u else u) })

/-- Raw insertOne into the users collection. -/
def usersInsertOne (m : MongoSt) (u : MUser) : Except String MongoSt :=
  match m with
  | .off => .error "not_connected"
  | .broken => .error "mongo_write_failed"
  | .on d => .ok (.on { d with users := d.users ++ [u] })

/-- mirrorUserToMongo: skipped outcome when the row has no email or the
store is unconfigured; otherwise find-then-update-or-insert, with every
exception of the attempt caught and converted to a failed outcome.  The
whole helper therefore never throws: its result is always Except.ok. -/
def mirrorUserToMongo (m : MongoSt) (row : Db.UserRow) :
    Except String (MirrorOutcome × MongoSt) :=
  if row.email = "" then .ok (.skipped "no_user", m)
  else
    match m with
    | .off => .ok (.skipped "MONGODB_URI not set", m)
    | mm =>
      let email := toLowerStr row.email
      let attempt : Except String (MirrorOutcome × MongoSt) :=
        match usersFindByEmail mm email with
        | .error e => .error e
        | .ok (some _) =>
          match usersUpdateByEmail mm email (fun u =>
            { u with
              fullName := (match row.fullName with
                | some f => some f
                | none => u.fullName),
              mobile := normalizeMobile row.mobile }) with
          | .error e => .error e
          | .ok m2 => .ok (.ok, m2)
        | .ok none =>
          match usersInsertOne mm
            { mid := "oid" ++ toString row.id
              sqliteId := some row.id
              email := email
              fullName := row.fullName
              mobile := normalizeMobile row.mobile
              role := none
              isActive := none
              deleted := none
              createdAt := some row.createdAt } with
          | .error e => .error e
          | .ok m2 => .ok (.ok, m2)
      match attempt with
      | .error e => .ok (.failed e, mm)
      | .ok r => .ok r

/-- Raw upsert by sqliteId into the bookings collection. -/
def bookingsUpsert (m : MongoSt) (b : MBooking) : Except String MongoSt :=
  match m with
  | .off => .error "not_connected"
  | .broken => .error "mongo_write_failed"
  | .on d =>
    let upd := d.bookings.map (fun x => if x.sqliteId == b.sqliteId then b else x)
    if d.bookings.any (fun x => x.sqliteId == b.sqliteId) then
      .ok (.on { d with bookings := upd })
    else .ok (.on { d with bookings := d.bookings ++ [b] })

/-- mirrorBookingToMongo: skipped when the store is unavailable, an upsert
keyed by sqliteId otherwise, every exception caught into a failed
outcome; the helper never throws. -/
def mirrorBookingToMongo (m : MongoSt) (row : Db.BookingRow) :
    Except String (MirrorOutcome × MongoSt) :=
  match m with
  | .off => .ok (.skipped "not_connected", m)
  | mm =>
    let doc : MBooking :=
      { sqliteId := row.id
        userId := row.userId
        carId := row.carId
        status := some (row.status.getD "confirmed") }
    match bookingsUpsert mm doc with
    | .error e => .ok (.failed e, mm)
    | .ok m2 => .ok (.ok, m2)

end Mongo

/-- JS falsy coalescing (s || null) for optional strings: an empty string
becomes null. -/
def presentStr (o : Option String) : Option String :=
  match o with
  | none => none
  | some s => if s = "" then none else some s

namespace Auth

/-- A row of the otp_codes table. -/
structure OtpRow where
  id : Nat
  email : String
  code : String
  purpose : String
  expiresAt : Nat
  attempts : Nat
  consumed : Bool
  deriving Repr, DecidableEq

/-- Primary-store state touched by the auth routes, with the next values
of the AUTOINCREMENT keys. -/
structure AuthState where
  users : List Db.UserRow
  otps : List OtpRow
  nextUserId : Nat
  nextOtpId : Nat
  deriving Repr, DecidableEq

/-- Body of POST /api/auth/verify-otp. -/
structure VerifyReq where
  email : String
  code : String
  purpose : String
  fullName : Option String
  mobile : Option String
  deriving Repr, DecidableEq

/-- The user DTO shape returned by the auth routes. -/
structure UserDTO where
  id : Nat
  email : String
  fullName : Option String
  mobile : Option String
  createdAt : Nat
  deriving Repr, DecidableEq

/-- Payload of the signed token: jwt.sign of id and role. -/
structure Token where
  id : Nat
  role : String
  deriving Repr, DecidableEq

/-- A JSON response of the auth routes: an error with its HTTP status, the
OTP-sent acknowledgement (message plus expiresAt, HTTP 200), or the
verified payload holding user and token (HTTP 200). -/
inductive VResp where
  | err (status : Nat) (msg : String)
  | otpSent (expiresAt : Nat)
  | success (user : UserDTO) (token : Token)
  deriving Repr, DecidableEq

/-- HTTP status of a response. -/
def VResp.status : VResp → Nat
  | .err s _ => s
  | .otpSent _ => 200
  | .success _ _ => 200

/-- toUserDTO over a SQLite user row. -/
def toUserDTO (u : Db.UserRow) : UserDTO :=
  { id := u.id, email := u.email, fullName := u.fullName,
    mobile := u.mobile, createdAt := u.createdAt }

/-- SELECT * FROM otp_codes WHERE email = ? AND code = ? AND consumed = 0
ORDER BY id DESC, then .get: the matching row with the largest id. -/
def lookupOtp (otps : List OtpRow) (email code : String) : Option OtpRow :=
  (otps.filter (fun r =>
      r.email == email && r.code == code && r.consumed == false)).foldl
    (fun acc r =>
      match acc with
      | none => some r
      | some a => if a.id < r.id then some r else some a) none

/-- The FIRST registered handler of POST /api/auth/verify-otp
(auth.js lines 159-201).  Despite its route, its body re-issues an OTP:
it validates the body (6-digit code, known purpose), checks the account
like request-otp does, stores a freshly generated code (the random
generator and the clock enter as the freshCode and now parameters) and
answers with the OTP-sent message.  It responds on every path and never
passes control to the next route (result is always some response). -/
def authVerifyOtpFirst (st : AuthState) (m : Mongo.MongoSt) (now : Nat)
    (freshCode : String) (req : VerifyReq) : Option VResp × AuthState :=
  if !(req.code.length == 6) then (some (.err 400 "OTP must be 6 digits"), st)
  else if !(req.purpose == "login" || req.purpose == "signup"
      || req.purpose == "reset") then
    (some (.err 400 "Invalid purpose"), st)
  else
    let normEmail := normalizeEmail req.email
    let existing := st.users.find? (fun u => u.email == normEmail)
    if req.purpose == "login" && existing.isNone
        && !(Mongo.mongoUserExists m normEmail) then
      (some (.err 404 "Email not registered"), st)
    else if req.purpose == "signup" && existing.isSome then
      (some (.err 409 "Email already registered"), st)
    else
      let storedPurpose := if req.purpose == "reset" then "login" else req.purpose
      let row : OtpRow :=
        { id := st.nextOtpId, email := normEmail, code := freshCode,
          purpose := storedPurpose, expiresAt := now + 600000,
          attempts := 0, consumed := false }
      (some (.otpSent (now + 600000)),
        { st with otps := st.otps ++ [row], nextOtpId := st.nextOtpId + 1 })

/-- UPDATE otp_codes SET consumed = 1, attempts = attempts + 1
WHERE id = ?. -/
def burnOtp (otps : List OtpRow) (id : Nat) : List OtpRow :=
  otps.map (fun r =>
    if r.id == id then { r with consumed := true, attempts := r.attempts + 1 }
    else r)

/-- Result of a verify-otp call: response, primary state, mirror state. -/
structure VerifyResult where
  resp : VResp
  st : AuthState
  mongo : Mongo.MongoSt
  deriving Repr, DecidableEq

/-- Tail of the second verify-otp handler once a user row is settled:
mirror the row (failures swallowed by try/catch), rebuild the DTO from the
Mongo copy when one exists, and sign a token with role user. -/
def finishVerify (st : AuthState) (m : Mongo.MongoSt) (user : Db.UserRow) :
    VerifyResult :=
  let m2 := match Mongo.mirrorUserToMongo m user with
    | .ok (_, mm) => mm
    | .error _ => m
  let dto := match Mongo.getMongoUser m2 user.email with
    | some mu =>
      { id := user.id, email := mu.email, fullName := presentStr mu.fullName,
        mobile := presentStr mu.mobile,
        createdAt := (match mu.createdAt with | some c => c | none => user.createdAt) }
    | none => toUserDTO user
  ⟨.success dto { id := user.id, role := "user" }, st, m2⟩

/-- The SECOND registered handler of POST /api/auth/verify-otp
(auth.js lines 204-278), the actual verification logic: look up the
freshest unconsumed (email, code) row, reject expired or attempt-exhausted
codes with 400, burn the code (consumed flag and attempt counter in one
UPDATE), then create or update the user according to the purpose stored on
the code, enforcing mobile uniqueness against both stores.  The validator
on this registration requires a 4-character code (email well-formedness,
checked by the framework, is not modelled). -/
def authVerifyOtpSecond (st : AuthState) (m : Mongo.MongoSt) (now : Nat)
    (req : VerifyReq) : VerifyResult :=
  if !(req.code.length == 4) then ⟨.err 400 "OTP must be 4 digits", st, m⟩
  else
    let normEmail := normalizeEmail req.email
    let normMobile := normalizeMobile req.mobile
    match lookupOtp st.otps normEmail req.code with
    | none => ⟨.err 400 "Invalid OTP", st, m⟩
    | some row =>
      if row.expiresAt < now then ⟨.err 400 "OTP expired", st, m⟩
      else if 5 ≤ row.attempts then ⟨.err 400 "Too many attempts", st, m⟩
      else
        let st1 := { st with otps := burnOtp st.otps row.id }
        match st1.users.find? (fun u => u.email == normEmail) with
        | none =>
          if row.purpose == "signup" then
            let mobileTaken :=
              match normMobile with
              | some digits =>
                (st1.users.any (fun u => u.mobile == some digits))
                  || Mongo.mongoMobileTaken m digits none
              | none => false
            if mobileTaken then
              ⟨.err 409 "Mobile number already registered", st1, m⟩
            else
              let newUser : Db.UserRow :=
                { id := st1.nextUserId, email := normEmail,
                  fullName := presentStr req.fullName, mobile := normMobile,
                  passwordHash := none, createdAt := now }
              let st2 := { st1 with
                users := st1.users ++ [newUser]
                nextUserId := st1.nextUserId + 1 }
              finishVerify st2 m newUser
          else
            match Mongo.getMongoUser m normEmail with
            | some mu =>
              let newUser : Db.UserRow :=
                { id := st1.nextUserId, email := normEmail,
                  fullName := presentStr mu.fullName,
                  mobile := normalizeMobile mu.mobile,
                  passwordHash := none, createdAt := now }
              let st2 := { st1 with
                users := st1.users ++ [newUser]
                nextUserId := st1.nextUserId + 1 }
              finishVerify st2 m newUser
            | none => ⟨.err 404 "Email not registered", st1, m⟩
        | some user =>
          if row.purpose == "signup" then
            ⟨.err 409 "Email already registered", st1, m⟩
          else
            let mobileTaken :=
              match normMobile with
              | some digits =>
                (st1.users.any (fun u =>
                    u.mobile == some digits && !(u.id == user.id)))
                  || Mongo.mongoMobileTaken m digits (some user.email)
              | none => false
            if mobileTaken then
              ⟨.err 409 "Mobile number already registered", st1, m⟩
            else
              let newFull := (match presentStr req.fullName with
                | some f => some f
                | none => user.fullName)
              let newMob := (match normMobile with
                | some mo => some mo
                | none => user.mobile)
              let user2 := { user with fullName := newFull, mobile := newMob }
              let st2 := { st1 with users := st1.users.map (fun u =>
                if u.id == user.id then
                  { u with fullName := newFull, mobile := newMob }
                else u) }
              finishVerify st2 m user2

/-- Express dispatch for POST /api/auth/verify-otp: the first registered
route runs first; only if it declined to respond (called next) would the
second route run.  The first handler responds on every path, so the second
registration is shadowed. -/
def authVerifyOtp (st : AuthState) (m : Mongo.MongoSt) (now : Nat)
    (freshCode : String) (req : VerifyReq) : VerifyResult :=
  match authVerifyOtpFirst st m now freshCode req with
  | (some r, st2) => ⟨r, st2, m⟩
  | (none, st2) => authVerifyOtpSecond st2 m now req

/-- POST /api/auth/login (deprecated): a constant 400 response, for every
request body, touching no state. -/
def authLogin {β : Type} (st : AuthState) (_body : β) : VResp × AuthState :=
  (.err 400 "Password login disabled. Use OTP flow.", st)

end Auth

/-- Insert into a list kept sorted by a numeric key in descending order. -/
def insertDesc {α : Type} (key : α → Nat) (x : α) : List α → List α
  | [] => [x]
  | y :: ys => if key y ≤ key x then x :: y :: ys else y :: insertDesc key x ys

/-- ORDER BY key DESC (also the Mongo sort with direction -1). -/
def sortByKeyDesc {α : Type} (key : α → Nat) (l : List α) : List α :=
  l.foldr (insertDesc key) []

namespace Bookings

/-- The columns of the cars row read by POST /api/bookings:
SELECT id, available FROM cars WHERE id = ?. -/
structure CarRow where
  id : Nat
  available : Bool
  deriving Repr, DecidableEq

/-- Primary-store state for the booking-creating route. -/
structure BState where
  cars : List CarRow
  bookings : List Db.BookingRow
  nextBookingId : Nat
  deriving Repr, DecidableEq

/-- Validated body of POST /api/bookings (locations, verification payload
and payment triplet are copied into the row unchanged; attachment files
are filesystem side work and are not modelled). -/
structure CreateReq where
  carId : Nat
  pickupDate : String
  returnDate : String
  totalCost : Nat
  days : Nat
  deriving Repr, DecidableEq

/-- Booking DTO produced by toBooking. -/
structure BookingDTO where
  id : Nat
  userId : Nat
  carId : Nat
  pickupDate : String
  returnDate : String
  totalCost : Option Nat
  days : Option Nat
  status : Option String
  deriving Repr, DecidableEq

/-- toBooking over a bookings row. -/
def toBooking (r : Db.BookingRow) : BookingDTO :=
  { id := r.id, userId := r.userId, carId := r.carId,
    pickupDate := r.pickupDate, returnDate := r.returnDate,
    totalCost := r.totalCost, days := r.days, status := r.status }

/-- Response of POST /api/bookings. -/
inductive BResp where
  | err (status : Nat) (msg : String)
  | created (b : BookingDTO)
  deriving Repr, DecidableEq

/-- HTTP status of a response (201 on creation). -/
def BResp.status : BResp → Nat
  | .err s _ => s
  | .created _ => 201

/-- Events published on the process-wide channel by this route. -/
inductive BEvent where
  | bookingCreated (b : BookingDTO)
  deriving Repr, DecidableEq

/-- Result of a POST /api/bookings call. -/
structure CreateResult where
  resp : BResp
  st : BState
  mongo : Mongo.MongoSt
  events : List BEvent
  deriving Repr, DecidableEq

/-- POST /api/bookings (bookings.js lines 242-322): reject when the car
row is absent or its available flag is unset (nothing inserted); otherwise
insert the booking with status confirmed, mirror it best-effort (failures
swallowed), broadcast booking_created and answer 201 with the DTO.  No
check against other bookings of the car is made. -/
def bookingsCreate (st : BState) (m : Mongo.MongoSt) (userId : Nat)
    (req : CreateReq) : CreateResult :=
  match st.cars.find? (fun c => c.id == req.carId) with
  | none => ⟨.err 400 "Invalid car", st, m, []⟩
  | some car =>
    if !car.available then
      ⟨.err 400 "Car is not available for booking", st, m, []⟩
    else
      let row : Db.BookingRow :=
        { id := st.nextBookingId, userId := userId, carId := req.carId,
          pickupDate := req.pickupDate, returnDate := req.returnDate,
          totalCost := some req.totalCost, days := some req.days,
          status := some "confirmed" }
      let st2 := { st with
        bookings := st.bookings ++ [row]
        nextBookingId := st.nextBookingId + 1 }
      let m2 := match Mongo.mirrorBookingToMongo m row with
        | .ok (_, mm) => mm
        | .error _ => m
      let out := toBooking row
      ⟨.created out, st2, m2, [.bookingCreated out]⟩

/-- Joined user columns of the admin list query. -/
structure JUser where
  id : Nat
  email : String
  fullName : Option String
  mobile : Option String
  deriving Repr, DecidableEq

/-- Joined car columns of the admin list query. -/
structure JCar where
  id : Nat
  name : String
  deriving Repr, DecidableEq

/-- Primary-store state for the admin list route. -/
structure AState where
  users : List JUser
  cars : List JCar
  bookings : List Db.BookingRow
  deriving Repr, DecidableEq

/-- One row of the admin booking list (representative projection of the
DTO: base booking fields plus the joined user/car enrichment). -/
structure BookingOut where
  id : Nat
  userId : Nat
  carId : Nat
  status : Option String
  userEmail : Option String
  carName : Option String
  deriving Repr, DecidableEq

/-- GET /api/bookings (admin, bookings.js lines 149-194).  With a
reachable secondary store the whole list is read from Mongo and the
user/car enrichment is joined against Mongo by sqliteId; the primary store
is not consulted.  Without it the SQLite query with its LEFT JOINs serves
the list.  A throwing secondary store escapes this route (no try/catch). -/
def bookingsAdminList (st : AState) (m : Mongo.MongoSt) :
    Except String (List BookingOut) :=
  match m with
  | .on d =>
    .ok ((sortByKeyDesc (fun b => b.sqliteId) d.bookings).map (fun b =>
      let u := d.users.find? (fun u => u.sqliteId == some b.userId)
      let c := d.cars.find? (fun c => c.sqliteId == b.carId)
      { id := b.sqliteId, userId := b.userId, carId := b.carId,
        status := some (b.status.getD "confirmed"),
        userEmail := u.map (fun x => x.email),
        carName := c.map (fun x => x.name) }))
  | .broken => .error "find_failed"
  | .off =>
    .ok ((sortByKeyDesc (fun b => b.id) st.bookings).map (fun b =>
      let u := st.users.find? (fun u => u.id == b.userId)
      let c := st.cars.find? (fun c => c.id == b.carId)
      { id := b.id, userId := b.userId, carId := b.carId,
        status := b.status,
        userEmail := u.map (fun x => x.email),
        carName := c.map (fun x => x.name) }))

end Bookings

namespace Payouts

/-- A row of the payout_requests table. -/
structure PayoutRow where
  id : Nat
  bookingId : Nat
  hostId : Nat
  amount : Nat
  status : String
  note : Option String
  approvedAt : Option Nat
  updatedAt : Nat
  deriving Repr, DecidableEq

/-- Booking columns used by the payout routes. -/
structure PBooking where
  id : Nat
  carId : Nat
  deriving Repr, DecidableEq

/-- Car columns used by the payout routes (host_id nullable). -/
structure PCar where
  id : Nat
  hostId : Option Nat
  deriving Repr, DecidableEq

/-- Primary-store state for the payout routes. -/
structure PState where
  bookings : List PBooking
  cars : List PCar
  payouts : List PayoutRow
  nextPayoutId : Nat
  deriving Repr, DecidableEq

/-- Response of a payout route (201 on creation, 200 on update). -/
inductive PResp where
  | err (status : Nat) (msg : String)
  | created (p : PayoutRow)
  | updated (p : PayoutRow)
  deriving Repr, DecidableEq

/-- HTTP status of a payout response. -/
def PResp.status : PResp → Nat
  | .err s _ => s
  | .created _ => 201
  | .updated _ => 200

/-- Events published by the payout routes. -/
inductive PEvent where
  | requestCreated (p : PayoutRow)
  | requestUpdated (p : PayoutRow)
  deriving Repr, DecidableEq

/-- Result of a payout route call. -/
structure PResult where
  resp : PResp
  st : PState
  events : List PEvent
  deriving Repr, DecidableEq

/-- POST /api/payouts/request (part_006 lines 54-84): 404 when the booking
is missing, 403 unless the joined car host matches the caller
(Number(null) is 0 for a hostless car), 409 when a pending request already
exists for the booking, else insert with the status column DEFAULT
pending and broadcast. -/
def payoutsRequest (st : PState) (userId : Nat) (bookingId amount : Nat)
    (note : Option String) (now : Nat) : PResult :=
  match st.bookings.find? (fun b => b.id == bookingId) with
  | none => ⟨.err 404 "Booking not found", st, []⟩
  | some b =>
    let hostId := ((st.cars.find? (fun c => c.id == b.carId)).bind
      (fun c => c.hostId)).getD 0
    if !(hostId == userId) then ⟨.err 403 "Not owner of this booking", st, []⟩
    else if (st.payouts.find? (fun p =>
        p.bookingId == bookingId && p.status == "pending")).isSome then
      ⟨.err 409 "Request already pending for this booking", st, []⟩
    else
      let row : PayoutRow :=
        { id := st.nextPayoutId, bookingId := bookingId, hostId := userId,
          amount := amount, status := "pending", note := presentStr note,
          approvedAt := none, updatedAt := now }
      let st2 := { st with
        payouts := st.payouts ++ [row]
        nextPayoutId := st.nextPayoutId + 1 }
      ⟨.created row, st2, [.requestCreated row]⟩

/-- POST /api/payouts/:id/approve (part_006 lines 87-95): 404 when the id
is unknown, 400 Already processed unless the current status is pending,
else set status approved with approved_at and updated_at stamps. -/
def payoutsApprove (st : PState) (id : Nat) (now : Nat) : PResult :=
  match st.payouts.find? (fun p => p.id == id) with
  | none => ⟨.err 404 "Not found", st, []⟩
  | some pr =>
    if !(pr.status == "pending") then ⟨.err 400 "Already processed", st, []⟩
    else
      let out := { pr with
        status := "approved"
        approvedAt := some now
        updatedAt := now }
      let st2 := { st with payouts := st.payouts.map (fun p =>
        if p.id == id then
          { p with status := "approved", approvedAt := some now, updatedAt := now }
        else p) }
      ⟨.updated out, st2, [.requestUpdated out]⟩

/-- POST /api/payouts/:id/reject (part_006 lines 98-106): as approve but
the new status is rejected and approved_at stays untouched. -/
def payoutsReject (st : PState) (id : Nat) (now : Nat) : PResult :=
  match st.payouts.find? (fun p => p.id == id) with
  | none => ⟨.err 404 "Not found", st, []⟩
  | some pr =>
    if !(pr.status == "pending") then ⟨.err 400 "Already processed", st, []⟩
    else
      let out := { pr with status := "rejected", updatedAt := now }
      let st2 := { st with payouts := st.payouts.map (fun p =>
        if p.id == id then { p with status := "rejected", updatedAt := now }
        else p) }
      ⟨.updated out, st2, [.requestUpdated out]⟩

/-- At most one pending request per booking. -/
def AtMostOnePending (l : List PayoutRow) : Prop :=
  ∀ p ∈ l, ∀ q ∈ l, p.status = "pending" → q.status = "pending" →
    p.bookingId = q.bookingId → p = q

end Payouts

namespace Users

/-- A row of the users table as used by the admin users routes (with the
role / is_active / deleted columns added by the later migration; the
integer flags keep their INTEGER representation). -/
structure SUser where
  id : Nat
  email : String
  fullName : Option String
  mobile : Option String
  role : Option String
  isActive : Int
  deleted : Int
  createdAt : Nat
  passwordHash : Option String
  deriving Repr, DecidableEq

/-- Booking columns feeding the aggregate join of the users list. -/
structure UBooking where
  userId : Nat
  totalCost : Option Nat
  deriving Repr, DecidableEq

/-- Primary-store state for the users routes. -/
structure UState where
  users : List SUser
  bookings : List UBooking
  nextUserId : Nat
  deriving Repr, DecidableEq

/-- Public id of a listed user: a primary numeric id, or the tagged
mongo_ string used when the row exists only in the secondary store. -/
inductive RowId where
  | num (n : Nat)
  | tagged (s : String)
  deriving Repr, DecidableEq

/-- One row of the admin users list: the toUser DTO plus the aggregate
columns. -/
structure UserOut where
  id : RowId
  email : String
  fullName : Option String
  mobile : Option String
  role : String
  isActive : Bool
  createdAt : Option Nat
  bookingCount : Nat
  totalSpent : Nat
  deriving Repr, DecidableEq

/-- The SQLite part of GET /api/users: users (optionally filtered by
role), grouped with COUNT(b.id) and COALESCE(SUM(b.total_cost),0) over
their bookings, ordered by id descending, shaped by toUser. -/
def sqliteUsersOut (st : UState) (roleParam : Option String) : List UserOut :=
  (sortByKeyDesc (fun u => u.id) (st.users.filter (fun u =>
      match roleParam with
      | none => true
      | some r => u.role == some r))).map (fun u =>
    let ubs := st.bookings.filter (fun b => b.userId == u.id)
    { id := .num u.id, email := u.email, fullName := u.fullName,
      mobile := u.mobile, role := (presentStr u.role).getD "user",
      isActive := !(u.isActive == (0 : Int)), createdAt := some u.createdAt,
      bookingCount := ubs.length,
      totalSpent := (ubs.filterMap (fun b => b.totalCost)).sum })

/-- The Mongo find filter of GET /api/users: role equal to the query
parameter when given, otherwise role must exist; deleted must be missing
or false. -/
def mongoHostKept (roleParam : Option String) (u : Mongo.MUser) : Bool :=
  (match roleParam with
    | some r => u.role == some r
    | none => u.role.isSome)
    && (u.deleted == none || u.deleted == some false)

/-- Shape of a secondary-only user pushed onto the combined users list:
id is host.sqliteId when truthy (0 is falsy in JS) else the tagged
mongo_ id; is_active is 1 unless isActive is literally false; the
aggregates are hard-coded to zero; then shaped by toUser. -/
def mongoRowOut (h : Mongo.MUser) : UserOut :=
  { id := (match h.sqliteId with
      | some n => if n == 0 then .tagged ("mongo_" ++ h.mid) else .num n
      | none => .tagged ("mongo_" ++ h.mid)),
    email := h.email, fullName := h.fullName, mobile := h.mobile,
    role := (presentStr h.role).getD "user",
    isActive := !(h.isActive == some false),
    createdAt := h.createdAt, bookingCount := 0, totalSpent := 0 }

/-- GET /api/users (users.js lines 24-90): compute the SQLite rows; when
the secondary store is reachable, additionally fetch its users and append
every secondary user whose email is not already among the primary rows —
an explicit merge of both stores into one response list.  A throwing
secondary store is caught by the route and surfaces as 500. -/
def usersList (st : UState) (m : Mongo.MongoSt) (roleParam : Option String) :
    Except String (List UserOut) :=
  let rows := sqliteUsersOut st roleParam
  match m with
  | .off => .ok rows
  | .broken => .error "Failed to fetch users"
  | .on d =>
    let hosts := d.users.filter (mongoHostKept roleParam)
    let extra := (hosts.filter (fun h =>
      !(rows.any (fun r => r.email == h.email)))).map mongoRowOut
    .ok (rows ++ extra)

/-- What a purely secondary-served users list would be: the filtered
Mongo users shaped as list rows (the Read Resolution Policy's
secondary-store serving, used to compare against the implementation). -/
def mongoUsersOut (d : Mongo.MongoData) (roleParam : Option String) :
    List UserOut :=
  (d.users.filter (mongoHostKept roleParam)).map mongoRowOut

/-- Validated body of POST /api/users. -/
structure CreateUserReq where
  email : String
  fullName : String
  mobile : Option String
  password : String
  role : Option String
  isActive : Option Bool
  deriving Repr, DecidableEq

/-- The newUser object answered by POST /api/users. -/
structure CreatedUser where
  id : Nat
  email : String
  fullName : String
  mobile : Option String
  role : String
  isActive : Bool
  createdAt : Nat
  deriving Repr, DecidableEq

/-- Response of POST /api/users. -/
inductive UResp where
  | err (status : Nat) (msg : String)
  | created (u : CreatedUser)
  deriving Repr, DecidableEq

/-- HTTP status of a users-route response (201 on creation). -/
def UResp.status : UResp → Nat
  | .err s _ => s
  | .created _ => 201

/-- Result of a POST /api/users call. -/
structure UCResult where
  resp : UResp
  st : UState
  mongo : Mongo.MongoSt
  deriving Repr, DecidableEq

/-- POST /api/users (users.js lines 93-160): reject a duplicate email with
400, insert the row into SQLite (password hashing abstracted), then — with
a reachable secondary store — run an insertOne that is NOT individually
guarded: when that mirror write throws, the route-level catch answers 500
even though the primary row was already inserted. -/
def usersCreate (st : UState) (m : Mongo.MongoSt) (now : Nat)
    (req : CreateUserReq) : UCResult :=
  if (st.users.find? (fun u => u.email == req.email)).isSome then
    ⟨.err 400 "User with this email already exists", st, m⟩
  else
    let role := (presentStr req.role).getD "user"
    let isActive := req.isActive.getD true
    let row : SUser :=
      { id := st.nextUserId, email := req.email, fullName := some req.fullName,
        mobile := req.mobile, role := some role,
        isActive := if isActive then 1 else 0, deleted := 0,
        createdAt := now, passwordHash := some req.password }
    let st2 := { st with
      users := st.users ++ [row]
      nextUserId := st.nextUserId + 1 }
    let dto : CreatedUser :=
      { id := row.id, email := req.email, fullName := req.fullName,
        mobile := req.mobile, role := role, isActive := isActive,
        createdAt := now }
    match m with
    | .off => ⟨.created dto, st2, .off⟩
    | mm =>
      let doc : Mongo.MUser :=
        { mid := "oid" ++ toString row.id, sqliteId := some row.id,
          email := req.email, fullName := some req.fullName,
          mobile := req.mobile, role := some role, isActive := some isActive,
          deleted := none, createdAt := some now }
      match Mongo.usersInsertOne mm doc with
      | .error _ => ⟨.err 500 "Failed to create user", st2, mm⟩
      | .ok m2 => ⟨.created dto, st2, m2⟩

end Users

/-! ## Generic list lemmas used by several theorems -/

theorem find?_isSome_eq_any {α : Type} (p : α → Bool) (l : List α) :
    (l.find? p).isSome = l.any p := by
  induction l with
  | nil => rfl
  | cons x xs ih =>
    cases h : p x
    · simp [List.find?_cons, h, ih]
    · simp [List.find?_cons, h]

/-! ## C10 -/

/-- C10: POST /api/auth/login answers HTTP 400 with the fixed message
for every request body and leaves the persistent state untouched. -/
theorem c10_login_always_disabled {β : Type} (st : Auth.AuthState) (body : β) :
    Auth.authLogin st body
      = (Auth.VResp.err 400 "Password login disabled. Use OTP flow.", st) :=
  rfl

/-! ## C9 -/

/-- C9: for every car, booking set and date range, the Mongo availability
predicate (and the whole per-car result list with its deleted/city car
filter) computes exactly the SQLite availability result. -/
theorem c9_mongo_sql_availability_equivalent {D : Type} [LinearOrder D] :
    (∀ (c : Avail.Car D) (bs : List (Avail.Booking D)) (pickup ret : D),
      Avail.availableForRangeMongo c bs pickup ret
        = Avail.availableForRangeSql c bs pickup ret)
    ∧ (∀ (cars : List (Avail.Car D)) (bs : List (Avail.Booking D))
        (pickup ret : D) (city : Option String),
      Avail.availabilityListMongo cars bs pickup ret city
        = Avail.availabilityListSql cars bs pickup ret city) := by
  have hconf : ∀ (cid : Nat) (pickup ret : D),
      Avail.conflictMongo cid pickup ret = Avail.conflictSql cid pickup ret := by
    intro cid pickup ret
    funext b
    unfold Avail.conflictMongo Avail.conflictSql
    cases hb : decide (b.returnDate ≤ pickup)
      <;> cases hr : decide (b.pickupDate ≥ ret)
      <;> simp [hb, hr]
  have hpt : ∀ (c : Avail.Car D) (bs : List (Avail.Booking D)) (pickup ret : D),
      Avail.availableForRangeMongo c bs pickup ret
        = Avail.availableForRangeSql c bs pickup ret := by
    intro c bs pickup ret
    unfold Avail.availableForRangeMongo Avail.availableForRangeSql
    cases hav : c.available
    · simp [hav]
    · simp [hav, hconf, find?_isSome_eq_any]
  refine ⟨hpt, ?_⟩
  intro cars bs pickup ret city
  unfold Avail.availabilityListMongo Avail.availabilityListSql
  have hk : Avail.carKeptMongo (D := D) city = Avail.carKeptSql city := rfl
  rw [hk]
  exact List.map_congr_left (fun c _ => by rw [hpt])

/-! ## C2 -/

/-- C2: over the SQLite availability predicate, (a) an available car with
a non-cancelled booking spanning a period overlapping the queried range is
reported unavailable; (b) when every non-cancelled booking of the car
ends at or before the range start or starts at or after the range end
(half-open disjointness) the car is reported available; (c) a cancelled
booking is ignored by the predicate; (d) a car whose available flag is
unset is reported unavailable for every range. -/
theorem c2_availability_predicate {D : Type} [LinearOrder D] :
    (∀ (c : Avail.Car D) (bs : List (Avail.Booking D)) (b : Avail.Booking D)
        (q1 q2 : D), c.available = true → b ∈ bs → b.carId = c.id →
      b.status ≠ some "cancelled" →
      ¬(b.returnDate ≤ q1 ∨ b.pickupDate ≥ q2) →
      Avail.availableForRangeSql c bs q1 q2 = false)
    ∧ (∀ (c : Avail.Car D) (bs : List (Avail.Booking D)) (q1 q2 : D),
      c.available = true →
      (∀ b ∈ bs, b.carId = c.id → b.status ≠ some "cancelled" →
        b.returnDate ≤ q1 ∨ b.pickupDate ≥ q2) →
      Avail.availableForRangeSql c bs q1 q2 = true)
    ∧ (∀ (c : Avail.Car D) (bs : List (Avail.Booking D)) (b : Avail.Booking D)
        (q1 q2 : D), b.status = some "cancelled" →
      Avail.availableForRangeSql c (b :: bs) q1 q2
        = Avail.availableForRangeSql c bs q1 q2)
    ∧ (∀ (c : Avail.Car D) (bs : List (Avail.Booking D)) (q1 q2 : D),
      c.available = false → Avail.availableForRangeSql c bs q1 q2 = false) := by
  refine ⟨?_, ?_, ?_, ?_⟩
  · intro c bs b q1 q2 hav hb hcar hst hov
    unfold Avail.availableForRangeSql
    have hconf : Avail.conflictSql c.id q1 q2 b = true := by
      unfold Avail.conflictSql
      push_neg at hov
      have h1 : (b.carId == c.id) = true := by simp [hcar]
      have h2 : (b.status == some "cancelled") = false := by
        simp only [beq_eq_false_iff_ne]; exact hst
      have h3 : decide (b.returnDate ≤ q1) = false :=
        decide_eq_false_iff_not.mpr (not_le.mpr hov.1)
      have h4 : decide (b.pickupDate ≥ q2) = false :=
        decide_eq_false_iff_not.mpr (not_le.mpr hov.2)
      simp [h1, h2, h3, h4]
    have hany : bs.any (Avail.conflictSql c.id q1 q2) = true :=
      List.any_eq_true.mpr ⟨b, hb, hconf⟩
    simp [hav, hany]
  · intro c bs q1 q2 hav hall
    unfold Avail.availableForRangeSql
    have hany : bs.any (Avail.conflictSql c.id q1 q2) = false := by
      rw [List.any_eq_false]
      intro b hb
      unfold Avail.conflictSql
      by_cases hcar : b.carId = c.id
      · by_cases hst : b.status = some "cancelled"
        · simp [hst]
        · have := hall b hb hcar hst
          rcases this with h | h <;> simp [h]
      · simp [hcar]
    simp [hav, hany]
  · intro c bs b q1 q2 hst
    unfold Avail.availableForRangeSql
    have hconf : Avail.conflictSql c.id q1 q2 b = false := by
      unfold Avail.conflictSql
      simp [hst]
    simp [List.any_cons, hconf]
  · intro c bs q1 q2 hav
    unfold Avail.availableForRangeSql
    simp [hav]

/-- Witness for C2 at concrete values: car 1 available, one confirmed
booking over days 10..14; the range 13..15 overlaps (unavailable), the
range 15..16 is disjoint (available); a cancelled booking over the same
days does not block 13..15; and car 2 with available=false is blocked even
for 0..1. -/
theorem c2_availability_predicate_witness :
    Avail.availableForRangeSql (D := Nat) ⟨1, true, none, none⟩
        [⟨1, some "confirmed", 10, 14⟩] 13 15 = false
    ∧ Avail.availableForRangeSql (D := Nat) ⟨1, true, none, none⟩
        [⟨1, some "confirmed", 10, 14⟩] 15 16 = true
    ∧ Avail.availableForRangeSql (D := Nat) ⟨1, true, none, none⟩
        [⟨1, some "cancelled", 10, 14⟩] 13 15
      = Avail.availableForRangeSql (D := Nat) ⟨1, true, none, none⟩ [] 13 15
    ∧ Avail.availableForRangeSql (D := Nat) ⟨2, false, none, none⟩ [] 0 1
      = false := by
  refine ⟨?_, ?_, ?_, ?_⟩
  · exact (c2_availability_predicate (D := Nat)).1 ⟨1, true, none, none⟩
      [⟨1, some "confirmed", 10, 14⟩] ⟨1, some "confirmed", 10, 14⟩ 13 15
      rfl (by decide) rfl (by decide) (by decide)
  · exact (c2_availability_predicate (D := Nat)).2.1 ⟨1, true, none, none⟩
      [⟨1, some "confirmed", 10, 14⟩] 15 16 rfl (by decide)
  · exact (c2_availability_predicate (D := Nat)).2.2.1 ⟨1, true, none, none⟩
      [] ⟨1, some "cancelled", 10, 14⟩ 13 15 (by decide)
  · exact (c2_availability_predicate (D := Nat)).2.2.2 ⟨2, false, none, none⟩
      [] 0 1 rfl

/-! ## OTP lookup lemmas -/

theorem foldl_latest_mem :
    ∀ (l : List Auth.OtpRow) (acc : Option Auth.OtpRow) (r : Auth.OtpRow),
      l.foldl (fun acc r =>
        match acc with
        | none => some r
        | some a => if a.id < r.id then some r else some a) acc = some r →
      r ∈ l ∨ acc = some r := by
  intro l
  induction l with
  | nil => intro acc r h; exact Or.inr h
  | cons x xs ih =>
    intro acc r h
    rcases ih _ r h with hm | he
    · exact Or.inl (List.mem_cons_of_mem x hm)
    · cases acc with
      | none =>
        simp only [] at he
        exact Or.inl (by rw [← Option.some_inj.mp he]; exact List.mem_cons_self x xs)
      | some a0 =>
        by_cases hlt : a0.id < x.id
        · simp only [hlt, if_true] at he
          exact Or.inl (by rw [← Option.some_inj.mp he]; exact List.mem_cons_self x xs)
        · simp only [hlt, if_false] at he
          exact Or.inr he

theorem lookupOtp_spec {otps : List Auth.OtpRow} {e c : String}
    {row : Auth.OtpRow} (h : Auth.lookupOtp otps e c = some row) :
    row ∈ otps ∧ row.email = e ∧ row.code = c ∧ row.consumed = false := by
  unfold Auth.lookupOtp at h
  rcases foldl_latest_mem _ none row h with hm | he
  · have hmem := List.mem_filter.mp hm
    refine ⟨hmem.1, ?_, ?_, ?_⟩
    · have := hmem.2
      simp only [Bool.and_eq_true, beq_iff_eq] at this
      exact this.1.1
    · have := hmem.2
      simp only [Bool.and_eq_true, beq_iff_eq] at this
      exact this.1.2
    · have := hmem.2
      simp only [Bool.and_eq_true, beq_iff_eq] at this
      exact this.2
  · exact absurd he (by simp)

/-! ## C6 -/

/-- C6: the OTP verification handler rejects every terminal code with a
400 user error: (i) a matched (unexpired) code with attempts at 5 or more
is answered Too many attempts even though the code value matched; (ii) the
lookup only ever yields unconsumed rows, so a consumed code can never be
matched again; (iii) when no unconsumed row matches (in particular when
the code was already consumed) the answer is Invalid OTP; (iv) a matched
code whose stored expiry is before the current time is answered
OTP expired. -/
theorem c6_otp_terminal_rejections :
    (∀ (st : Auth.AuthState) (m : Mongo.MongoSt) (now : Nat)
        (req : Auth.VerifyReq) (row : Auth.OtpRow),
      req.code.length = 4 →
      Auth.lookupOtp st.otps (normalizeEmail req.email) req.code = some row →
      ¬(row.expiresAt < now) → 5 ≤ row.attempts →
      (Auth.authVerifyOtpSecond st m now req).resp
        = .err 400 "Too many attempts")
    ∧ (∀ (otps : List Auth.OtpRow) (e c : String) (row : Auth.OtpRow),
      Auth.lookupOtp otps e c = some row → row.consumed = false)
    ∧ (∀ (st : Auth.AuthState) (m : Mongo.MongoSt) (now : Nat)
        (req : Auth.VerifyReq),
      req.code.length = 4 →
      Auth.lookupOtp st.otps (normalizeEmail req.email) req.code = none →
      (Auth.authVerifyOtpSecond st m now req).resp = .err 400 "Invalid OTP")
    ∧ (∀ (st : Auth.AuthState) (m : Mongo.MongoSt) (now : Nat)
        (req : Auth.VerifyReq) (row : Auth.OtpRow),
      req.code.length = 4 →
      Auth.lookupOtp st.otps (normalizeEmail req.email) req.code = some row →
      row.expiresAt < now →
      (Auth.authVerifyOtpSecond st m now req).resp = .err 400 "OTP expired") := by
  refine ⟨?_, ?_, ?_, ?_⟩
  · intro st m now req row hlen hlk hexp hatt
    unfold Auth.authVerifyOtpSecond
    have hl : (req.code.length == 4) = true := by simp [hlen]
    simp only [hl, Bool.not_true, Bool.false_eq_true, if_false, hlk, hexp,
      if_true, hatt, ite_false, ite_true]
  · intro otps e c row h
    exact (lookupOtp_spec h).2.2.2
  · intro st m now req hlen hlk
    unfold Auth.authVerifyOtpSecond
    have hl : (req.code.length == 4) = true := by simp [hlen]
    simp only [hl, Bool.not_true, Bool.false_eq_true, if_false, hlk]
  · intro st m now req row hlen hlk hexp
    unfold Auth.authVerifyOtpSecond
    have hl : (req.code.length == 4) = true := by simp [hlen]
    simp only [hl, Bool.not_true, Bool.false_eq_true, if_false, hlk, hexp,
      if_true, ite_true]

/-- Witness for C6 at concrete states: an unexpired matching code with 5
attempts answers Too many attempts; a lookup result is always unconsumed;
with only a consumed copy of the code in the table the answer is Invalid
OTP; an expired matching code answers OTP expired. -/
theorem c6_otp_terminal_rejections_witness :
    (Auth.authVerifyOtpSecond
        ⟨[], [⟨1, "a@x.com", "1234", "login", 100, 5, false⟩], 1, 2⟩
        .off 50 ⟨"a@x.com", "1234", "login", none, none⟩).resp
      = .err 400 "Too many attempts"
    ∧ (⟨1, "a@x.com", "1234", "login", 100, 5, false⟩ : Auth.OtpRow).consumed
      = false
    ∧ (Auth.authVerifyOtpSecond
        ⟨[], [⟨1, "a@x.com", "1234", "login", 100, 0, true⟩], 1, 2⟩
        .off 50 ⟨"a@x.com", "1234", "login", none, none⟩).resp
      = .err 400 "Invalid OTP"
    ∧ (Auth.authVerifyOtpSecond
        ⟨[], [⟨1, "a@x.com", "1234", "login", 100, 0, false⟩], 1, 2⟩
        .off 200 ⟨"a@x.com", "1234", "login", none, none⟩).resp
      = .err 400 "OTP expired" := by
  refine ⟨?_, ?_, ?_, ?_⟩
  · exact c6_otp_terminal_rejections.1
      ⟨[], [⟨1, "a@x.com", "1234", "login", 100, 5, false⟩], 1, 2⟩ .off 50
      ⟨"a@x.com", "1234", "login", none, none⟩
      ⟨1, "a@x.com", "1234", "login", 100, 5, false⟩
      (by decide) (by decide) (by decide) (by decide)
  · exact c6_otp_terminal_rejections.2.1
      [⟨1, "a@x.com", "1234", "login", 100, 5, false⟩] "a@x.com" "1234"
      ⟨1, "a@x.com", "1234", "login", 100, 5, false⟩ (by decide)
  · exact c6_otp_terminal_rejections.2.2.1
      ⟨[], [⟨1, "a@x.com", "1234", "login", 100, 0, true⟩], 1, 2⟩ .off 50
      ⟨"a@x.com", "1234", "login", none, none⟩ (by decide) (by decide)
  · exact c6_otp_terminal_rejections.2.2.2
      ⟨[], [⟨1, "a@x.com", "1234", "login", 100, 0, false⟩], 1, 2⟩ .off 200
      ⟨"a@x.com", "1234", "login", none, none⟩
      ⟨1, "a@x.com", "1234", "login", 100, 0, false⟩
      (by decide) (by decide) (by decide)

/-! ## C7 -/

/-- C7: on every structurally-valid verification attempt (well-formed
code, a matching unconsumed row that passes the expiry and attempt
checks), the matched code is burned — the resulting OTP table is exactly
the input table with that row marked consumed and its attempt counter
incremented — regardless of which business branch (signup conflict,
mobile conflict, unknown login user, or success) the request then takes;
in particular the burned copy of the row is present afterwards. -/
theorem c7_otp_burned_before_business_checks :
    ∀ (st : Auth.AuthState) (m : Mongo.MongoSt) (now : Nat)
      (req : Auth.VerifyReq) (row : Auth.OtpRow),
      req.code.length = 4 →
      Auth.lookupOtp st.otps (normalizeEmail req.email) req.code = some row →
      ¬(row.expiresAt < now) → row.attempts < 5 →
      (Auth.authVerifyOtpSecond st m now req).st.otps
          = Auth.burnOtp st.otps row.id
        ∧ ({ row with consumed := true, attempts := row.attempts + 1 }
            : Auth.OtpRow)
          ∈ (Auth.authVerifyOtpSecond st m now req).st.otps := by
  intro st m now req row hlen hlk hexp hatt
  have hatt5 : ¬(5 ≤ row.attempts) := not_le.mpr hatt
  have hmain : (Auth.authVerifyOtpSecond st m now req).st.otps
      = Auth.burnOtp st.otps row.id := by
    unfold Auth.authVerifyOtpSecond
    have hl : (req.code.length == 4) = true := by simp [hlen]
    simp only [hl, Bool.not_true, Bool.false_eq_true, if_false, hlk, hexp,
      hatt5, ite_false]
    split
    · split
      · split
        · rfl
        · simp [Auth.finishVerify]
      · split
        · simp [Auth.finishVerify]
        · rfl
    · split
      · rfl
      · split
        · rfl
        · simp [Auth.finishVerify]
  refine ⟨hmain, ?_⟩
  rw [hmain]
  have hmem : row ∈ st.otps := (lookupOtp_spec hlk).1
  have : (fun r : Auth.OtpRow =>
      if r.id == row.id then
        { r with consumed := true, attempts := r.attempts + 1 }
      else r) row
      ∈ Auth.burnOtp st.otps row.id :=
    List.mem_map_of_mem _ hmem
  simpa [Auth.burnOtp] using this

/-- Witness for C7: a signup code for an already-registered email — the
request fails business validation with 409, yet the code is burned. -/
theorem c7_otp_burned_before_business_checks_witness :
    (Auth.authVerifyOtpSecond
        ⟨[⟨1, "a@x.com", none, none, none, 0⟩],
          [⟨1, "a@x.com", "1234", "signup", 100, 0, false⟩], 2, 2⟩
        .off 50 ⟨"a@x.com", "1234", "signup", none, none⟩).st.otps
      = Auth.burnOtp [⟨1, "a@x.com", "1234", "signup", 100, 0, false⟩] 1
    ∧ ({ id := 1, email := "a@x.com", code := "1234", purpose := "signup",
          expiresAt := 100, attempts := 1, consumed := true } : Auth.OtpRow)
      ∈ (Auth.authVerifyOtpSecond
        ⟨[⟨1, "a@x.com", none, none, none, 0⟩],
          [⟨1, "a@x.com", "1234", "signup", 100, 0, false⟩], 2, 2⟩
        .off 50 ⟨"a@x.com", "1234", "signup", none, none⟩).st.otps :=
  c7_otp_burned_before_business_checks
    ⟨[⟨1, "a@x.com", none, none, none, 0⟩],
      [⟨1, "a@x.com", "1234", "signup", 100, 0, false⟩], 2, 2⟩
    .off 50 ⟨"a@x.com", "1234", "signup", none, none⟩
    ⟨1, "a@x.com", "1234", "signup", 100, 0, false⟩
    (by decide) (by decide) (by decide) (by decide)

/-! ## C1 -/

/-- C1 (divergence witness): auth.js registers POST /verify-otp twice and
Express runs the first matching registration, which answers on every path
and never calls next, so the second (real verification) registration is
unreachable.  At a state holding a previously issued, unexpired,
unconsumed, zero-attempt signup code 123456 for a fresh email, a
well-formed verification request with that code, fullName and mobile is
answered by the first registration: it stores a fresh code and replies
with the OTP-sent message — no user row is created and no user/token
payload is ever returned.  A request carrying a 4-digit code (the length
the second registration expects, and the length of codes the first
registration itself issues) is rejected by the first registration's own
6-digit validator.  This contradicts the documented contract
verify-otp to user-and-token. -/
theorem c1_verify_otp_endpoint_shadowed :
    (Auth.authVerifyOtp
        ⟨[], [⟨1, "a@x.com", "123456", "signup", 999999999, 0, false⟩], 1, 2⟩
        .off 0 "4321"
        ⟨"a@x.com", "123456", "signup", some "Alice", some "9876543210"⟩).resp
      = .otpSent 600000
    ∧ (Auth.authVerifyOtp
        ⟨[], [⟨1, "a@x.com", "123456", "signup", 999999999, 0, false⟩], 1, 2⟩
        .off 0 "4321"
        ⟨"a@x.com", "123456", "signup", some "Alice", some "9876543210"⟩).st.users
      = []
    ∧ (∀ u t, (Auth.authVerifyOtp
        ⟨[], [⟨1, "a@x.com", "123456", "signup", 999999999, 0, false⟩], 1, 2⟩
        .off 0 "4321"
        ⟨"a@x.com", "123456", "signup", some "Alice", some "9876543210"⟩).resp
      ≠ .success u t)
    ∧ (Auth.authVerifyOtp
        ⟨[], [⟨2, "b@x.com", "1234", "signup", 999999999, 0, false⟩], 1, 3⟩
        .off 0 "4321"
        ⟨"b@x.com", "1234", "signup", some "Bob", none⟩).resp
      = .err 400 "OTP must be 6 digits" := by
  refine ⟨by decide, by decide, ?_, by decide⟩
  intro u t
  intro h
  have : (Auth.authVerifyOtp
      ⟨[], [⟨1, "a@x.com", "123456", "signup", 999999999, 0, false⟩], 1, 2⟩
      .off 0 "4321"
      ⟨"a@x.com", "123456", "signup", some "Alice", some "9876543210"⟩).resp
      = .otpSent 600000 := by decide
  rw [this] at h
  exact Auth.VResp.noConfusion h

/-! ## C8 -/

/-- C8: POST /api/bookings (i) answers 400 Invalid car and inserts nothing
when the referenced car does not exist; (ii) answers 400 and inserts
nothing when the car exists with available=false; (iii) when the car
exists with available=true it appends exactly one booking row with status
confirmed referencing that (existing) car, answers 201 with the created
DTO and publishes one booking_created event; (iv) the response and events
are identical for every pre-existing set of bookings — no overlap check
happens at write time. -/
theorem c8_booking_create_contract :
    (∀ (st : Bookings.BState) (m : Mongo.MongoSt) (uid : Nat)
        (req : Bookings.CreateReq),
      st.cars.find? (fun c => c.id == req.carId) = none →
      (Bookings.bookingsCreate st m uid req).resp = .err 400 "Invalid car"
        ∧ (Bookings.bookingsCreate st m uid req).st = st
        ∧ (Bookings.bookingsCreate st m uid req).events = [])
    ∧ (∀ (st : Bookings.BState) (m : Mongo.MongoSt) (uid : Nat)
        (req : Bookings.CreateReq) (car : Bookings.CarRow),
      st.cars.find? (fun c => c.id == req.carId) = some car →
      car.available = false →
      (Bookings.bookingsCreate st m uid req).resp
          = .err 400 "Car is not available for booking"
        ∧ (Bookings.bookingsCreate st m uid req).st = st
        ∧ (Bookings.bookingsCreate st m uid req).events = [])
    ∧ (∀ (st : Bookings.BState) (m : Mongo.MongoSt) (uid : Nat)
        (req : Bookings.CreateReq) (car : Bookings.CarRow),
      st.cars.find? (fun c => c.id == req.carId) = some car →
      car.available = true →
      (Bookings.bookingsCreate st m uid req).resp
          = .created (Bookings.toBooking
              ⟨st.nextBookingId, uid, req.carId, req.pickupDate,
                req.returnDate, some req.totalCost, some req.days,
                some "confirmed"⟩)
        ∧ (Bookings.bookingsCreate st m uid req).st.bookings
          = st.bookings
            ++ [⟨st.nextBookingId, uid, req.carId, req.pickupDate,
                req.returnDate, some req.totalCost, some req.days,
                some "confirmed"⟩]
        ∧ (∃ c ∈ st.cars, c.id = req.carId)
        ∧ (Bookings.bookingsCreate st m uid req).events
          = [.bookingCreated (Bookings.toBooking
              ⟨st.nextBookingId, uid, req.carId, req.pickupDate,
                req.returnDate, some req.totalCost, some req.days,
                some "confirmed"⟩)])
    ∧ (∀ (st : Bookings.BState) (m : Mongo.MongoSt) (uid : Nat)
        (req : Bookings.CreateReq) (bs1 bs2 : List Db.BookingRow),
      (Bookings.bookingsCreate { st with bookings := bs1 } m uid req).resp
          = (Bookings.bookingsCreate { st with bookings := bs2 } m uid req).resp
        ∧ (Bookings.bookingsCreate { st with bookings := bs1 } m uid req).events
          = (Bookings.bookingsCreate { st with bookings := bs2 } m uid req).events) := by
  refine ⟨?_, ?_, ?_, ?_⟩
  · intro st m uid req hfind
    unfold Bookings.bookingsCreate
    rw [hfind]
    exact ⟨rfl, rfl, rfl⟩
  · intro st m uid req car hfind hav
    unfold Bookings.bookingsCreate
    rw [hfind]
    simp [hav]
  · intro st m uid req car hfind hav
    have hmem := List.mem_of_find?_eq_some hfind
    have hid : car.id = req.carId := by
      have := List.find?_some hfind
      simpa using this
    unfold Bookings.bookingsCreate
    rw [hfind]
    simp only [hav, Bool.not_true, Bool.false_eq_true, if_false, ite_false]
    exact ⟨trivial, trivial, ⟨car, hmem, hid⟩, trivial⟩
  · intro st m uid req bs1 bs2
    unfold Bookings.bookingsCreate
    cases hfind : st.cars.find? (fun c => c.id == req.carId) with
    | none => exact ⟨rfl, rfl⟩
    | some car =>
      cases hav : car.available
      · simp [hav]
      · simp [hav]

/-- Witness for C8: car 7 is available and already has a confirmed
booking over 2025-10-12..2025-10-14; a second booking for the very same
range is still created with status confirmed (no overlap check), and with
an empty car table the same request is answered Invalid car. -/
theorem c8_booking_create_contract_witness :
    (Bookings.bookingsCreate
        ⟨[⟨7, true⟩],
          [⟨1, 9, 7, "2025-10-12", "2025-10-14", some 100, some 2,
            some "confirmed"⟩], 2⟩
        .off 3 ⟨7, "2025-10-12", "2025-10-14", 200, 2⟩).resp
      = .created (Bookings.toBooking
          ⟨2, 3, 7, "2025-10-12", "2025-10-14", some 200, some 2,
            some "confirmed"⟩)
    ∧ (Bookings.bookingsCreate ⟨[], [], 1⟩ .off 3
        ⟨7, "2025-10-12", "2025-10-14", 200, 2⟩).resp
      = .err 400 "Invalid car" := by
  constructor
  · exact (c8_booking_create_contract.2.2.1
      ⟨[⟨7, true⟩],
        [⟨1, 9, 7, "2025-10-12", "2025-10-14", some 100, some 2,
          some "confirmed"⟩], 2⟩
      .off 3 ⟨7, "2025-10-12", "2025-10-14", 200, 2⟩ ⟨7, true⟩
      (by decide) rfl).1
  · exact (c8_booking_create_contract.1 ⟨[], [], 1⟩ .off 3
      ⟨7, "2025-10-12", "2025-10-14", 200, 2⟩ (by decide)).1

/-! ## C4 -/

theorem pairwise_id_inj {l : List Payouts.PayoutRow}
    (h : l.Pairwise (fun a b => a.id ≠ b.id)) :
    ∀ p ∈ l, ∀ q ∈ l, p.id = q.id → p = q := by
  induction l with
  | nil => intro p hp; exact absurd hp (List.not_mem_nil p)
  | cons x xs ih =>
    intro p hp q hq hid
    have hx := List.pairwise_cons.mp h
    rcases List.mem_cons.mp hp with hpx | hpxs
    · rcases List.mem_cons.mp hq with hqx | hqxs
      · rw [hpx, hqx]
      · exact absurd (hpx ▸ hid) (hx.1 q hqxs)
    · rcases List.mem_cons.mp hq with hqx | hqxs
      · exact absurd (hqx ▸ hid.symm) (hx.1 p hpxs)
      · exact ih hx.2 p hpxs q hqxs hid

/-- C4: payout life cycle.  (1) Requesting a payout for a booking that
already has a pending request (with the booking present and the caller
owning its car) answers 409 and changes nothing.  (2)/(3) Approving or
rejecting a request whose status is not pending answers the 400 user
error Already processed and changes nothing.  (4)-(6) Each of the three
operations preserves the at-most-one-pending-request-per-booking
invariant.  (7) A request operation only ever adds rows whose status is
pending.  (8)/(9) Under unique row ids, approve (reject) leaves every row
untouched except a pending one which becomes its approved (rejected)
version — so pending to approved and pending to rejected are the only
transitions, and approved/rejected rows are terminal. -/
theorem c4_payout_state_machine :
    (∀ (st : Payouts.PState) (uid bid amt : Nat) (note : Option String)
        (now : Nat) (b : Payouts.PBooking),
      st.bookings.find? (fun x => x.id == bid) = some b →
      ((st.cars.find? (fun c => c.id == b.carId)).bind
        (fun c => c.hostId)).getD 0 = uid →
      (∃ p ∈ st.payouts, p.bookingId = bid ∧ p.status = "pending") →
      (Payouts.payoutsRequest st uid bid amt note now).resp
          = .err 409 "Request already pending for this booking"
        ∧ (Payouts.payoutsRequest st uid bid amt note now).st = st)
    ∧ (∀ (st : Payouts.PState) (id now : Nat) (pr : Payouts.PayoutRow),
      st.payouts.find? (fun p => p.id == id) = some pr →
      pr.status ≠ "pending" →
      (Payouts.payoutsApprove st id now).resp = .err 400 "Already processed"
        ∧ (Payouts.payoutsApprove st id now).st = st)
    ∧ (∀ (st : Payouts.PState) (id now : Nat) (pr : Payouts.PayoutRow),
      st.payouts.find? (fun p => p.id == id) = some pr →
      pr.status ≠ "pending" →
      (Payouts.payoutsReject st id now).resp = .err 400 "Already processed"
        ∧ (Payouts.payoutsReject st id now).st = st)
    ∧ (∀ (st : Payouts.PState) (uid bid amt : Nat) (note : Option String)
        (now : Nat),
      Payouts.AtMostOnePending st.payouts →
      Payouts.AtMostOnePending
        (Payouts.payoutsRequest st uid bid amt note now).st.payouts)
    ∧ (∀ (st : Payouts.PState) (id now : Nat),
      Payouts.AtMostOnePending st.payouts →
      Payouts.AtMostOnePending (Payouts.payoutsApprove st id now).st.payouts)
    ∧ (∀ (st : Payouts.PState) (id now : Nat),
      Payouts.AtMostOnePending st.payouts →
      Payouts.AtMostOnePending (Payouts.payoutsReject st id now).st.payouts)
    ∧ (∀ (st : Payouts.PState) (uid bid amt : Nat) (note : Option String)
        (now : Nat),
      ∀ r ∈ (Payouts.payoutsRequest st uid bid amt note now).st.payouts,
        r ∈ st.payouts ∨ r.status = "pending")
    ∧ (∀ (st : Payouts.PState) (id now : Nat),
      st.payouts.Pairwise (fun a b => a.id ≠ b.id) →
      ∀ r ∈ (Payouts.payoutsApprove st id now).st.payouts,
        r ∈ st.payouts
          ∨ ∃ p ∈ st.payouts, p.status = "pending"
              ∧ r = { p with
                      status := "approved"
                      approvedAt := some now
                      updatedAt := now })
    ∧ (∀ (st : Payouts.PState) (id now : Nat),
      st.payouts.Pairwise (fun a b => a.id ≠ b.id) →
      ∀ r ∈ (Payouts.payoutsReject st id now).st.payouts,
        r ∈ st.payouts
          ∨ ∃ p ∈ st.payouts, p.status = "pending"
              ∧ r = { p with status := "rejected", updatedAt := now }) := by
  refine ⟨?_, ?_, ?_, ?_, ?_, ?_, ?_, ?_, ?_⟩
  · -- (1) duplicate pending request
    intro st uid bid amt note now b hfind hhost hex
    unfold Payouts.payoutsRequest
    rw [hfind]
    have hu : ((((st.cars.find? (fun c => c.id == b.carId)).bind
        (fun c => c.hostId)).getD 0) == uid) = true := by simp [hhost]
    obtain ⟨p, hp, hpb, hps⟩ := hex
    have hsome : (st.payouts.find? (fun p =>
        p.bookingId == bid && p.status == "pending")).isSome = true := by
      rw [find?_isSome_eq_any]
      exact List.any_eq_true.mpr ⟨p, hp, by simp [hpb, hps]⟩
    simp [hu, hsome]
  · -- (2) approve a non-pending request
    intro st id now pr hfind hst
    unfold Payouts.payoutsApprove
    rw [hfind]
    have : (pr.status == "pending") = false := by
      simp only [beq_eq_false_iff_ne]; exact hst
    simp [this]
  · -- (3) reject a non-pending request
    intro st id now pr hfind hst
    unfold Payouts.payoutsReject
    rw [hfind]
    have : (pr.status == "pending") = false := by
      simp only [beq_eq_false_iff_ne]; exact hst
    simp [this]
  · -- (4) request preserves at-most-one-pending
    intro st uid bid amt note now hinv
    unfold Payouts.payoutsRequest
    cases hfind : st.bookings.find? (fun x => x.id == bid) with
    | none => exact hinv
    | some b =>
      by_cases hu : (((((st.cars.find? (fun c => c.id == b.carId)).bind
          (fun c => c.hostId)).getD 0) == uid) = true)
      · cases hsome : (st.payouts.find? (fun p =>
            p.bookingId == bid && p.status == "pending")).isSome with
        | true => simp [hu, hsome]; exact hinv
        | false =>
          have hnone : ∀ p ∈ st.payouts,
              ¬(p.bookingId == bid && p.status == "pending") = true := by
            intro p hp
            rw [find?_isSome_eq_any] at hsome
            exact fun hc =>
              (Bool.eq_false_iff.mp hsome) (List.any_eq_true.mpr ⟨p, hp, hc⟩)
          simp only [hu, if_true, hsome, Bool.false_eq_true, if_false,
            ite_false, ite_true]
          intro p hp q hq hps hqs hbid
          rcases List.mem_append.mp hp with hpl | hpr
          · rcases List.mem_append.mp hq with hql | hqr
            · exact hinv p hpl q hql hps hqs hbid
            · have hq2 := List.mem_singleton.mp hqr
              exfalso
              apply hnone p hpl
              have : p.bookingId = bid := by rw [hbid, hq2]
              simp [this, hps]
          · have hp2 := List.mem_singleton.mp hpr
            rcases List.mem_append.mp hq with hql | hqr
            · exfalso
              apply hnone q hql
              have : q.bookingId = bid := by rw [← hbid, hp2]
              simp [this, hqs]
            · rw [hp2, List.mem_singleton.mp hqr]
      · simp [hu]; exact hinv
  · -- (5) approve preserves at-most-one-pending
    intro st id now hinv
    unfold Payouts.payoutsApprove
    cases hfind : st.payouts.find? (fun p => p.id == id) with
    | none => exact hinv
    | some pr =>
      cases hst : pr.status == "pending" with
      | false => simp [hst]; exact hinv
      | true =>
        simp only [hst, Bool.not_true, Bool.false_eq_true, if_false, ite_false]
        intro p1 hp1 q1 hq1 hps1 hqs1 hbid
        obtain ⟨p, hp, hfp⟩ := List.mem_map.mp hp1
        obtain ⟨q, hq, hfq⟩ := List.mem_map.mp hq1
        have hpeq : p1 = p := by
          cases hpid : p.id == id with
          | true =>
            rw [← hfp] at hps1
            simp [hpid] at hps1
          | false => rw [← hfp]; simp [hpid]
        have hqeq : q1 = q := by
          cases hqid : q.id == id with
          | true =>
            rw [← hfq] at hqs1
            simp [hqid] at hqs1
          | false => rw [← hfq]; simp [hqid]
        rw [hpeq, hqeq]
        exact hinv p hp q hq (hpeq ▸ hps1) (hqeq ▸ hqs1) (hpeq ▸ hqeq ▸ hbid)
  · -- (6) reject preserves at-most-one-pending
    intro st id now hinv
    unfold Payouts.payoutsReject
    cases hfind : st.payouts.find? (fun p => p.id == id) with
    | none => exact hinv
    | some pr =>
      cases hst : pr.status == "pending" with
      | false => simp [hst]; exact hinv
      | true =>
        simp only [hst, Bool.not_true, Bool.false_eq_true, if_false, ite_false]
        intro p1 hp1 q1 hq1 hps1 hqs1 hbid
        obtain ⟨p, hp, hfp⟩ := List.mem_map.mp hp1
        obtain ⟨q, hq, hfq⟩ := List.mem_map.mp hq1
        have hpeq : p1 = p := by
          cases hpid : p.id == id with
          | true =>
            rw [← hfp] at hps1
            simp [hpid] at hps1
          | false => rw [← hfp]; simp [hpid]
        have hqeq : q1 = q := by
          cases hqid : q.id == id with
          | true =>
            rw [← hfq] at hqs1
            simp [hqid] at hqs1
          | false => rw [← hfq]; simp [hqid]
        rw [hpeq, hqeq]
        exact hinv p hp q hq (hpeq ▸ hps1) (hqeq ▸ hqs1) (hpeq ▸ hqeq ▸ hbid)
  · -- (7) request only adds pending rows
    intro st uid bid amt note now r hr
    unfold Payouts.payoutsRequest at hr
    cases hfind : st.bookings.find? (fun x => x.id == bid) with
    | none => rw [hfind] at hr; exact Or.inl hr
    | some b =>
      rw [hfind] at hr
      by_cases hu : (((((st.cars.find? (fun c => c.id == b.carId)).bind
          (fun c => c.hostId)).getD 0) == uid) = true)
      · cases hsome : (st.payouts.find? (fun p =>
            p.bookingId == bid && p.status == "pending")).isSome with
        | true => simp [hu, hsome] at hr; exact Or.inl hr
        | false =>
          simp only [hu, if_true, hsome, Bool.false_eq_true, if_false,
            ite_false, ite_true] at hr
          rcases List.mem_append.mp hr with hl | hrr
          · exact Or.inl hl
          · right; rw [List.mem_singleton.mp hrr]
      · simp [hu] at hr; exact Or.inl hr
  · -- (8) approve transitions
    intro st id now hids r hr
    unfold Payouts.payoutsApprove at hr
    cases hfind : st.payouts.find? (fun p => p.id == id) with
    | none => rw [hfind] at hr; exact Or.inl hr
    | some pr =>
      rw [hfind] at hr
      cases hst : pr.status == "pending" with
      | false => simp [hst] at hr; exact Or.inl hr
      | true =>
        simp only [hst, Bool.not_true, Bool.false_eq_true, if_false,
          ite_false] at hr
        obtain ⟨p, hp, hfp⟩ := List.mem_map.mp hr
        cases hpid : p.id == id with
        | false =>
          rw [← hfp]; simp [hpid]; exact Or.inl hp
        | true =>
          right
          have hprmem := List.mem_of_find?_eq_some hfind
          have hprid : (pr.id == id) = true := by
            have h0 := List.find?_some hfind
            simpa using h0
          have hpp : p = pr :=
            pairwise_id_inj hids p hp pr hprmem
              (by rw [beq_iff_eq.mp hpid, beq_iff_eq.mp hprid])
          refine ⟨p, hp, ?_, ?_⟩
          · rw [hpp]; exact beq_iff_eq.mp hst
          · rw [← hfp]; simp [hpid]
  · -- (9) reject transitions
    intro st id now hids r hr
    unfold Payouts.payoutsReject at hr
    cases hfind : st.payouts.find? (fun p => p.id == id) with
    | none => rw [hfind] at hr; exact Or.inl hr
    | some pr =>
      rw [hfind] at hr
      cases hst : pr.status == "pending" with
      | false => simp [hst] at hr; exact Or.inl hr
      | true =>
        simp only [hst, Bool.not_true, Bool.false_eq_true, if_false,
          ite_false] at hr
        obtain ⟨p, hp, hfp⟩ := List.mem_map.mp hr
        cases hpid : p.id == id with
        | false =>
          rw [← hfp]; simp [hpid]; exact Or.inl hp
        | true =>
          right
          have hprmem := List.mem_of_find?_eq_some hfind
          have hprid : (pr.id == id) = true := by
            have h0 := List.find?_some hfind
            simpa using h0
          have hpp : p = pr :=
            pairwise_id_inj hids p hp pr hprmem
              (by rw [beq_iff_eq.mp hpid, beq_iff_eq.mp hprid])
          refine ⟨p, hp, ?_, ?_⟩
          · rw [hpp]; exact beq_iff_eq.mp hst
          · rw [← hfp]; simp [hpid]

/-- Witness for C4 at a concrete state: booking 1 on car 5 owned by host
9 with a pending payout request — a second request answers 409 and leaves
the table unchanged; with the request already approved, approving again
answers 400 Already processed and changes nothing. -/
theorem c4_payout_state_machine_witness :
    ((Payouts.payoutsRequest
        ⟨[⟨1, 5⟩], [⟨5, some 9⟩],
          [⟨1, 1, 9, 100, "pending", none, none, 0⟩], 2⟩ 9 1 50 none 7).resp
      = .err 409 "Request already pending for this booking"
    ∧ (Payouts.payoutsRequest
        ⟨[⟨1, 5⟩], [⟨5, some 9⟩],
          [⟨1, 1, 9, 100, "pending", none, none, 0⟩], 2⟩ 9 1 50 none 7).st
      = ⟨[⟨1, 5⟩], [⟨5, some 9⟩],
          [⟨1, 1, 9, 100, "pending", none, none, 0⟩], 2⟩)
    ∧ ((Payouts.payoutsApprove
        ⟨[⟨1, 5⟩], [⟨5, some 9⟩],
          [⟨1, 1, 9, 100, "approved", none, none, 0⟩], 2⟩ 1 7).resp
      = .err 400 "Already processed"
    ∧ (Payouts.payoutsApprove
        ⟨[⟨1, 5⟩], [⟨5, some 9⟩],
          [⟨1, 1, 9, 100, "approved", none, none, 0⟩], 2⟩ 1 7).st
      = ⟨[⟨1, 5⟩], [⟨5, some 9⟩],
          [⟨1, 1, 9, 100, "approved", none, none, 0⟩], 2⟩) := by
  constructor
  · exact c4_payout_state_machine.1
      ⟨[⟨1, 5⟩], [⟨5, some 9⟩],
        [⟨1, 1, 9, 100, "pending", none, none, 0⟩], 2⟩ 9 1 50 none 7 ⟨1, 5⟩
      (by decide) (by decide)
      ⟨⟨1, 1, 9, 100, "pending", none, none, 0⟩, by decide, rfl, rfl⟩
  · exact c4_payout_state_machine.2.1
      ⟨[⟨1, 5⟩], [⟨5, some 9⟩],
        [⟨1, 1, 9, 100, "approved", none, none, 0⟩], 2⟩ 1 7
      ⟨1, 1, 9, 100, "approved", none, none, 0⟩
      (by decide) (by decide)

/-! ## C3 -/

/-- C3 counterexample: POST /api/users with a fresh email normally
answers 201; with the secondary store reachable but throwing during the
unguarded mirror insert, the very same request answers 500 — the
secondary-store failure is surfaced to the HTTP caller, refuting the
claim for this mutating endpoint and this secondary-store state. -/
theorem c3_counterexample_user_create_surfaces_500 :
    (Users.usersCreate ⟨[], [], 1⟩ .off 0
        ⟨"c@x.com", "Carol", none, "pw", none, none⟩).resp.status = 201
    ∧ (Users.usersCreate ⟨[], [], 1⟩ .broken 0
        ⟨"c@x.com", "Carol", none, "pw", none, none⟩).resp.status = 500 := by
  decide

/-- C3 (amended): the dedicated mirror helpers never throw — for every
secondary-store state (including the throwing one) they return a
non-throwing outcome value; endpoints that mirror through them, such as
POST /api/bookings, produce the identical response, primary state and
events for every secondary-store state; but the admin user-create
endpoint runs an unguarded secondary insert, so a throwing secondary
store makes it answer 500 after the primary write. -/
theorem c3_mirror_failure_isolation_amended :
    (∀ (m : Mongo.MongoSt) (u : Db.UserRow),
      ∃ r, Mongo.mirrorUserToMongo m u = .ok r)
    ∧ (∀ (m : Mongo.MongoSt) (b : Db.BookingRow),
      ∃ r, Mongo.mirrorBookingToMongo m b = .ok r)
    ∧ (∀ (st : Bookings.BState) (m : Mongo.MongoSt) (uid : Nat)
        (req : Bookings.CreateReq),
      (Bookings.bookingsCreate st m uid req).resp
          = (Bookings.bookingsCreate st .off uid req).resp
        ∧ (Bookings.bookingsCreate st m uid req).st
          = (Bookings.bookingsCreate st .off uid req).st
        ∧ (Bookings.bookingsCreate st m uid req).events
          = (Bookings.bookingsCreate st .off uid req).events)
    ∧ ((Users.usersCreate ⟨[], [], 5⟩ .broken 0
        ⟨"d@x.com", "Dan", none, "pw", none, none⟩).resp
      = .err 500 "Failed to create user") := by
  refine ⟨?_, ?_, ?_, by decide⟩
  · intro m u
    unfold Mongo.mirrorUserToMongo
    by_cases h : u.email = ""
    · simp only [h, if_true, ite_true]
      exact ⟨_, rfl⟩
    · simp only [h, if_false, ite_false]
      rcases m with _ | _ | d
      · exact ⟨_, rfl⟩
      · exact ⟨_, rfl⟩
      · simp only [Mongo.usersFindByEmail]
        cases hf : d.users.find? (fun x => x.email == toLowerStr u.email) with
        | none => simp only [hf]; exact ⟨_, rfl⟩
        | some x => simp only [hf]; exact ⟨_, rfl⟩
  · intro m b
    unfold Mongo.mirrorBookingToMongo
    rcases m with _ | _ | d
    · exact ⟨_, rfl⟩
    · exact ⟨_, rfl⟩
    · unfold Mongo.bookingsUpsert
      cases hany : d.bookings.any (fun x => x.sqliteId == b.id) with
      | true => simp only [hany, if_true, ite_true]; exact ⟨_, rfl⟩
      | false => simp only [hany, Bool.false_eq_true, if_false, ite_false]; exact ⟨_, rfl⟩
  · intro st m uid req
    unfold Bookings.bookingsCreate
    cases hfind : st.cars.find? (fun c => c.id == req.carId) with
    | none => exact ⟨rfl, rfl, rfl⟩
    | some car =>
      cases hav : car.available with
      | false => simp [hav]
      | true => simp [hav]

/-! ## C5 -/

/-- C5 counterexample: with user alice only in SQLite and host bob only
in Mongo, GET /api/users returns a two-row list that equals neither the
primary-served list (alice alone) nor the secondary-served list (bob
alone) — the response mixes rows of both stores in a single list. -/
theorem c5_counterexample_users_list_merges_stores :
    ¬(Users.usersList
        ⟨[⟨1, "a@x.com", some "Alice", none, some "user", 1, 0, 0, none⟩],
          [], 2⟩
        (.on ⟨[⟨"b1", none, "b@x.com", some "Bob", none, some "host", none,
          none, none⟩], [], []⟩) none
      = .ok (Users.sqliteUsersOut
          ⟨[⟨1, "a@x.com", some "Alice", none, some "user", 1, 0, 0, none⟩],
            [], 2⟩ none)
    ∨ Users.usersList
        ⟨[⟨1, "a@x.com", some "Alice", none, some "user", 1, 0, 0, none⟩],
          [], 2⟩
        (.on ⟨[⟨"b1", none, "b@x.com", some "Bob", none, some "host", none,
          none, none⟩], [], []⟩) none
      = .ok (Users.mongoUsersOut
          ⟨[⟨"b1", none, "b@x.com", some "Bob", none, some "host", none,
            none, none⟩], [], []⟩ none)) := by
  decide

/-- C5 (amended): list endpoints other than the admin users list serve a
call entirely from one store — the admin bookings list built from a
reachable secondary store is independent of the whole primary state (and
of course the primary fallback is independent of the secondary) — while
GET /api/users is the exception: with a reachable secondary store its
response is always the primary rows followed by the secondary users (role
present, not deleted) whose email does not occur among the primary rows. -/
theorem c5_single_store_lists_amended :
    (∀ (s1 s2 : Bookings.AState) (d : Mongo.MongoData),
      Bookings.bookingsAdminList s1 (.on d)
        = Bookings.bookingsAdminList s2 (.on d))
    ∧ (∀ (st : Users.UState) (d : Mongo.MongoData) (roleParam : Option String),
      Users.usersList st (.on d) roleParam
        = .ok (Users.sqliteUsersOut st roleParam
            ++ (d.users.filter (fun h =>
                Users.mongoHostKept roleParam h
                  && !((Users.sqliteUsersOut st roleParam).any
                    (fun r => r.email == h.email)))).map Users.mongoRowOut)) := by
  constructor
  · intro s1 s2 d
    rfl
  · intro st d roleParam
    unfold Users.usersList
    simp only []
    rw [List.filter_filter]
    congr 3
    apply List.filter_congr
    intro h hmem
    exact Bool.and_comm _ _
